import Mathlib

/-!
Shallow embedding of the SCPI oscilloscope driver in src/HP54645D.py.

Modelling conventions:
- Each command operation is embedded as a function returning a `PyOutcome`:
  the termination status (normal return or a raised Python exception) paired
  with the ordered list of message strings passed to `scope.send`, i.e. the
  transport I/O the call performs.
- Python `int` is modelled as `Int`, Python `str` as `String` (length in code
  points matches `String.length`), Python `float` as `Rat`; the driver only
  compares floats against literals, and no theorem below inspects the textual
  rendering of a float.
- CPython evaluates `x is not 0` for a small cached int exactly like `x != 0`,
  and `channel is not 1` like `channel != 1`; the embedding uses `≠`.
- Calling a function that requires a positional parameter with zero arguments,
  and constructing `InputError` (whose init requires `expression` and
  `message`) with a single argument, both raise `TypeError` in Python; the
  embedding models these sites as `PyError.typeError`.
-/

/-- Exceptions the driver code can raise: its own `InputError` (carrying the
offending expression, rendered to a string, and the message), plus the Python
builtins `TypeError`, `ValueError` and `IndexError` that defective call sites
and failed parses raise. -/
inductive PyError where
  | inputError (expression message : String)
  | typeError
  | valueError
  | indexError
deriving DecidableEq

/-- Termination status of one driver call: normal return or a raised error. -/
inductive PyStatus where
  | ok
  | raised (e : PyError)
deriving DecidableEq

/-- Status of a call together with the list of strings handed to `scope.send`,
in order. -/
abbrev PyOutcome := PyStatus × List String

/-- Python `str.isascii`: every code point is at most 127 (true on the empty
string). -/
def pyIsAscii (s : String) : Bool :=
  s.toList.all (fun c => c.toNat ≤ 127)

/-- Does `pat` occur at the head of `s`? Helper for Python `str.find`. -/
def hasPref : List Char → List Char → Bool
  | [], _ => true
  | _ :: _, [] => false
  | c :: cs, d :: ds => c == d && hasPref cs ds

/-- Worker for Python `str.find`: index of the first occurrence of `pat` in
the remaining text, or -1. -/
def pyFindAux (pat : List Char) : List Char → Int
  | [] => if pat.isEmpty then 0 else -1
  | d :: ds =>
    if hasPref pat (d :: ds) then 0
    else
      let r := pyFindAux pat ds
      if r = -1 then -1 else r + 1

/-- Python `s.find(pat)`: index of the first occurrence of `pat` in `s`, or
-1 when `pat` does not occur. -/
def pyFind (s pat : String) : Int :=
  pyFindAux pat.toList s.toList

/-- Numeric value of a list of decimal digit characters. -/
def digitsToNat (ds : List Char) : Nat :=
  ds.foldl (fun n c => 10 * n + (c.toNat - 48)) 0

/-- Strip leading and trailing whitespace, as Python `int()` does before
parsing its argument. -/
def pyStripWs (s : List Char) : List Char :=
  ((s.dropWhile Char.isWhitespace).reverse.dropWhile Char.isWhitespace).reverse

/-- Python `int(s)` on a decimal string: strip surrounding whitespace, allow
one leading sign, then require a nonempty run of decimal digits; anything else
raises `ValueError`. (Underscore separators and non-ASCII digits, which the
driver never receives in the claims under study, are not modelled.) -/
def pyInt (s : String) : Except PyError Int :=
  match pyStripWs s.toList with
  | '+' :: ds =>
    if ds ≠ [] ∧ ds.all Char.isDigit then .ok (digitsToNat ds : Nat) else .error .valueError
  | '-' :: ds =>
    if ds ≠ [] ∧ ds.all Char.isDigit then .ok (-(digitsToNat ds : Nat) : Int) else .error .valueError
  | ds =>
    if ds ≠ [] ∧ ds.all Char.isDigit then .ok (digitsToNat ds : Nat) else .error .valueError

/-- Python `s.split(",")`: split on every comma; adjacent commas and an empty
string produce empty fields, and a string with no comma yields the single
field `[s]`. -/
def pySplitComma : List Char → List (List Char)
  | [] => [[]]
  | c :: cs =>
    if c = ',' then [] :: pySplitComma cs
    else
      match pySplitComma cs with
      | [] => [[c]]
      | f :: fs => (c :: f) :: fs

/-- Python list indexing `l[i]` for a nonnegative index: the element, or
`IndexError` when the list is too short. -/
def pyIndex (l : List String) (i : Nat) : Except PyError String :=
  match l.drop i with
  | [] => .error .indexError
  | x :: _ => .ok x

/-- HP54645D.py lines 296-313 and 372-389: the boolean reply decode used by
`analog.getBWLimit` and `analog.getInversion` is the Python expression
`True if line.find("ON") else False`; the int returned by `find` is used for
its truthiness, so the result is true exactly when that index is nonzero
(including -1 for absent). -/
def analogBoolDecode (line : String) : Bool :=
  if pyFind line "ON" = 0 then false else true

/-- HP54645D.py lines 105-119, `acquire.setCompletionCriteria`: reject an
argument outside 0..100 with `InputError` and send nothing, otherwise send
the `:ACQ:COMP` command. -/
def acqSetCompletionCriteria (criteria : Int) : PyOutcome :=
  if criteria < 0 ∨ criteria > 100 then
    (.raised (.inputError (toString criteria) "Must be an int between 0 and 100."), [])
  else
    (.ok, [":ACQ:COMP " ++ toString criteria ++ "\n"])

/-- HP54645D.py line 571: `scope.analog.getProbeAttenuation()` calls a
function whose signature requires the positional parameter `channel` with
zero arguments, which raises `TypeError` in Python before the function body
(and hence before any transport I/O) can run. -/
def analogGetProbeAttenuationNoArg : Except PyError String :=
  .error .typeError

/-- HP54645D.py lines 555-578, `analog.setRange`: the body first evaluates
`int(re.sub(..., scope.analog.getProbeAttenuation()))` (line 571), so the
`TypeError` from the zero-argument call is raised before the channel check;
the rest of the body (channel validation, silent pass when the range is out
of bounds, and the send) is embedded for completeness but is unreachable.
`re.sub` with pattern backslash-D and empty replacement keeps exactly the
digit characters. -/
def analogSetRange (channel : Int) (range : ℚ) : PyOutcome :=
  match analogGetProbeAttenuationNoArg with
  | .error e => (.raised e, [])
  | .ok reply =>
    match pyInt (String.mk (reply.toList.filter Char.isDigit)) with
    | .error e => (.raised e, [])
    | .ok attenuation =>
      if channel ≠ 1 ∧ channel ≠ 2 then
        (.raised (.inputError (toString channel) "Channel must be either 1 or 2!"), [])
      else if range < 0.016 * (attenuation : ℚ) ∨ range > 40 * (attenuation : ℚ) then
        (.ok, [])
      else
        (.ok, [":ANAL" ++ toString channel ++ ":RANG " ++ toString range])

/-- HP54645D.py lines 611-628, `calibrate.setCalibrationLabel`: reject a
label longer than 32 characters, then a non-ASCII label, with `InputError`;
otherwise send the `:CAL:LAB` command — with the label neither wrapped in
double quotes nor followed by a line terminator. -/
def calSetCalibrationLabel (label : String) : PyOutcome :=
  if label.length > 32 then
    (.raised (.inputError label
      ("Label must not be longer than 32 characters, but was "
        ++ toString label.length ++ " characters long!")), [])
  else if pyIsAscii label = false then
    (.raised (.inputError label "Label can only contain ASCII characters!"), [])
  else
    (.ok, [":CAL:LAB " ++ label])

/-- HP54645D.py lines 974-990, `trigger.setCoupling`: reject a coupling
outside the AC/DC pair with `InputError`; otherwise send the `:TRIG:COUP`
command, with no trailing line terminator. -/
def trigSetCoupling (coupling : String) : PyOutcome :=
  if coupling ∉ (["AC", "DC"] : List String) then
    (.raised (.inputError coupling
      ("coupling must be \"AC\" or \"DC\", but was " ++ coupling ++ "!")), [])
  else
    (.ok, [":TRIG:COUP " ++ coupling])

/-- HP54645D.py lines 160-169, `acquire.setDither`: no validation; send the
`:ACQ:DITH` command with the boolean rendered as the ON or OFF token. -/
def acqSetDither (dither : Bool) : PyOutcome :=
  (.ok, [":ACQ:DITH " ++ (if dither then "ON" else "OFF") ++ "\n"])

/-- HP54645D.py lines 211-223, `acquire.getPoints` reply decode: split the
line on the comma, convert field 0 with `int`, then index field 1 (raising
`IndexError` when the split produced fewer than two fields, exactly as the
source expression `data.split(",")[1]` does) and convert it with `int`. The
source calls `data.split(",")` once per field; splitting is pure, so the one
`fields` list below is the result of both calls. -/
def acqGetPointsDecode (data : String) : Except PyError (Int × Int) :=
  let fields := (pySplitComma data.toList).map String.mk
  match pyIndex fields 0 with
  | .error e => .error e
  | .ok field0 =>
    match pyInt field0 with
    | .error e => .error e
    | .ok analogPoints =>
      match pyIndex fields 1 with
      | .error e => .error e
      | .ok field1 =>
        match pyInt field1 with
        | .error e => .error e
        | .ok digitalPoints => .ok (analogPoints, digitalPoints)

/-- HP54645D.py line 144: the valid averaging counts for `acquire.setCount`.
-/
def acqValidCounts : List Int := [1, 2, 4, 8, 16, 32, 64, 128, 256]

/-- HP54645D.py lines 133-147, `acquire.setCount`: reject a count outside
the powers of two from 1 to 256 with `InputError`; otherwise send the
`:ACQ:COUN` command. -/
def acqSetCount (count : Int) : PyOutcome :=
  if count ∉ acqValidCounts then
    (.raised (.inputError (toString count)
      "Must be a power of 2 with an exponent between 0 and 8!"), [])
  else
    (.ok, [":ACQ:COUN " ++ toString count ++ "\n"])

/-- One observable transport action performed by `scope.send`. -/
inductive TEvent where
  | openPort
  | write (payload : String)
  | poll (outWaiting : Nat)
  | closePort
deriving DecidableEq

/-- HP54645D.py lines 61-62: the busy-wait loop keeps reading `out_waiting`
until a reading is 0 (CPython evaluates `is not 0` on these small cached
ints as inequality). The successive readings the environment would deliver
are modelled as a list; the result is the readings the loop consumes, up to
and including the first 0, or `none` when no reading is ever 0 and the loop
diverges. -/
def drainPolls : List Nat → Option (List Nat)
  | [] => none
  | r :: rs => if r = 0 then some [r] else (drainPolls rs).map (r :: ·)

/-- The readings consumed by the drain loop when a 0 eventually appears:
everything up to and including the first 0. -/
def pollsTaken : List Nat → List Nat
  | [] => []
  | r :: rs => if r = 0 then [0] else r :: pollsTaken rs

/-- HP54645D.py lines 50-63, `scope.send`: open the port, write the UTF-8
encoding of the whole message, busy-wait on `out_waiting` until it reports 0,
then close the port. The call is modelled as the ordered trace of transport
events it performs; UTF-8 encoding is injective, so the write event carries
the message string itself. `none` models the loop never observing 0. -/
def pySend (message : String) (outWaitingReads : List Nat) : Option (List TEvent) :=
  (drainPolls outWaitingReads).map fun ps =>
    TEvent.openPort :: TEvent.write message :: (ps.map TEvent.poll ++ [TEvent.closePort])

/-- HP54645D.py lines 391-412, `analog.setLabel`: reject a channel other
than 1 or 2, then a non-ASCII label, then a label longer than 6 characters,
each with `InputError`; otherwise send the `:ANAL<n>:LAB` command with the
label wrapped in double quotes and a trailing line terminator. -/
def analogSetLabel (channel : Int) (label : String) : PyOutcome :=
  if channel ≠ 1 ∧ channel ≠ 2 then
    (.raised (.inputError (toString channel) "Channel must be either 1 or 2!"), [])
  else if pyIsAscii label = false then
    (.raised (.inputError label "Label can only contain ASCII characters!"), [])
  else if label.length > 6 then
    (.raised (.inputError label "Length must be six characters or less!"), [])
  else
    (.ok, [":ANAL" ++ toString channel ++ ":LAB \"" ++ label ++ "\"\n"])

/-- HP54645D.py line 766: the membership test of `channel.setMath` compares
`mode` against the Python literal, which is an empty dict, so the test key
set is empty. -/
def pyEmptyDictKeys : List String := []

/-- HP54645D.py lines 753-769, `channel.setMath`: `mode not in` the empty
literal holds for every mode, so the raise branch is always taken; the
`InputError` there is constructed with a single argument, which raises
`TypeError` instead. The send branch is unreachable. -/
def chanSetMath (mode : String) : PyOutcome :=
  if mode ∉ pyEmptyDictKeys then (.raised .typeError, [])
  else (.ok, [":CHAN:MATH " ++ mode ++ "\n"])

/-- HP54645D.py lines 912-916, `timebase.setRange`: when the range is below
50 ns or above 500 s the body is `pass` — no exception, nothing sent;
otherwise send the `:TIM:RANG` command (no trailing terminator). The
`channel` parameter is ignored by the source. -/
def timSetRange (channel : Int) (range : ℚ) : PyOutcome :=
  if range < 0.00000005 ∨ range > 500 then (.ok, [])
  else (.ok, [":TIM:RANG " ++ toString range])

/-- Minimal regular-expression AST covering the constructs appearing in the
channel and label patterns of HP54645D.py lines 722 and 724: literal
characters, character ranges, concatenation, alternation, optionality, and
the two Python re anchors. -/
inductive Rx where
  | lit (c : Char)
  | cls (lo hi : Char)
  | seq (a b : Rx)
  | alt (a b : Rx)
  | opt (a : Rx)
  | bol
  | eol

/-- End positions of matches of a pattern starting at position `i` of `s`,
per Python re semantics without flags: `bol` matches only at position 0 and
`eol` at the end of the string or just before a final newline. -/
def Rx.ends (s : List Char) : Rx → Nat → List Nat
  | .lit c, i =>
    match s.drop i with
    | [] => []
    | d :: _ => if d = c then [i + 1] else []
  | .cls lo hi, i =>
    match s.drop i with
    | [] => []
    | d :: _ => if lo ≤ d ∧ d ≤ hi then [i + 1] else []
  | .seq a b, i => (Rx.ends s a i).flatMap fun j => Rx.ends s b j
  | .alt a b, i => Rx.ends s a i ++ Rx.ends s b i
  | .opt a, i => i :: Rx.ends s a i
  | .bol, i => if i = 0 then [i] else []
  | .eol, i =>
    if i = s.length ∨ (i + 1 = s.length ∧ s.drop i = ['\n']) then [i] else []

/-- Python `re.fullmatch(p, s)` is truthy exactly when some match of `p`
starting at position 0 spans the whole string. -/
def rxFullmatch (r : Rx) (s : String) : Bool :=
  (Rx.ends s.toList r 0).contains s.toList.length

/-- The channel alternatives of the pattern on HP54645D.py line 722: A
followed by 1-2, or D followed by 0-9, or D1 optionally followed by 0-5. -/
def chanCoreRx : Rx :=
  .alt (.seq (.lit 'A') (.cls '1' '2'))
    (.alt (.seq (.lit 'D') (.cls '0' '9'))
      (.seq (.lit 'D') (.seq (.lit '1') (.opt (.cls '0' '5')))))

/-- HP54645D.py line 722: the channel validation pattern, transliterated
character by character — the JavaScript-style delimiters were pasted into
the Python pattern, so it opens with a literal slash followed by the bol
anchor. -/
def chanRx : Rx :=
  .seq (.lit '/')
    (.seq .bol (.seq chanCoreRx (.seq .eol (.seq (.lit '/') (.lit 'g')))))

/-- One character of the A-to-z class of the pattern on line 724. -/
def azOnceRx : Rx := .cls 'A' 'z'

/-- One to six repetitions of the A-to-z class, written with optionality. -/
def az16Rx : Rx :=
  .seq azOnceRx (.opt (.seq azOnceRx (.opt (.seq azOnceRx
    (.opt (.seq azOnceRx (.opt (.seq azOnceRx (.opt azOnceRx)))))))))

/-- HP54645D.py line 724: the label validation pattern, transliterated
character by character — it opens with a literal slash and g before the bol
anchor. -/
def labelRx : Rx :=
  .seq (.lit '/')
    (.seq (.lit 'g')
      (.seq .bol (.seq az16Rx (.seq .eol (.seq (.lit '/') (.lit 'g'))))))

/-- HP54645D.py lines 706-729, `channel.setLabel`: validate the channel with
`re.fullmatch` against the line 722 pattern, then the label against the line
724 pattern together with `isascii`; each failing branch raises by
constructing `InputError` with a single argument, which raises `TypeError`.
On success (unreachable, as proved below) the channel is reformatted — the
source removes every A and then every D with `replace` before the `int`
conversion — and the `:CHAN:LAB` command is sent. -/
def chanSetLabel (channel label : String) : PyOutcome :=
  if rxFullmatch chanRx channel = false then (.raised .typeError, [])
  else if (rxFullmatch labelRx label && pyIsAscii label) = false then
    (.raised .typeError, [])
  else
    let chanType := if channel.startsWith "A" then "ANAL" else "DIG"
    match pyInt (String.mk
        ((channel.toList.filter (fun c => c ≠ 'A')).filter (fun c => c ≠ 'D'))) with
    | .error e => (.raised e, [])
    | .ok chanNum =>
      (.ok, [":CHAN:LAB " ++ chanType ++ toString chanNum ++ ",\"" ++ label ++ "\"\n"])

/-- Claim C1 (code evaluation at the failing inputs): the boolean-token
decode the source uses for `analog.getBWLimit` and `analog.getInversion`
maps the raw reply line ON to false (the find index 0 is falsy) and the raw
reply line OFF to true (the find index -1 is truthy), the exact inversion of
the claimed decoding. -/
theorem c1_bool_decode_inverted :
    analogBoolDecode "ON" = false ∧ analogBoolDecode "OFF" = true := by
  constructor <;> rfl

/-- Claim C2 (code evaluation at the failing input): for
`acquire.setCompletionCriteria` the claim holds (out-of-range arguments raise
`InputError` with no transport I/O), but `analog.setRange` with the invalid
channel 3 raises `TypeError` from its leading zero-argument call to
`getProbeAttenuation` instead of the validation error, so validation failure
is not uniformly a raised validation error across command operations. -/
theorem c2_validation_not_uniform :
    acqSetCompletionCriteria 101
      = (.raised (.inputError "101" "Must be an int between 0 and 100."), []) ∧
    acqSetCompletionCriteria (-3)
      = (.raised (.inputError "-3" "Must be an int between 0 and 100."), []) ∧
    analogSetRange 3 1 = (.raised .typeError, []) := by
  refine ⟨rfl, rfl, rfl⟩

/-- Claim C3 (counterexample): `calibrate.setCalibrationLabel` accepts the
label HI and sends exactly `:CAL:LAB HI`, a wire string that neither wraps
the free text in double quotes nor ends with a line terminator, refuting the
claimed universal encoding shape. -/
theorem c3_wire_format_counterexample :
    calSetCalibrationLabel "HI" = (.ok, [":CAL:LAB HI"]) ∧
    '\n' ∉ (":CAL:LAB HI").toList ∧
    '\"' ∉ (":CAL:LAB HI").toList := by
  refine ⟨rfl, by decide, by decide⟩

/-- Claim C3 (amended): accepted arguments are encoded with a leading colon
mnemonic path and booleans as the ON/OFF tokens, but terminator and quoting
are per-command: `acquire.setCompletionCriteria` and `acquire.setDither`
append a line terminator, while `calibrate.setCalibrationLabel` (free text
unquoted) and `trigger.setCoupling` append none. -/
theorem c3_wire_format (c : Int) (l cp : String)
    (hc : 0 ≤ c ∧ c ≤ 100) (hl : l.length ≤ 32 ∧ pyIsAscii l = true)
    (hcp : cp = "AC" ∨ cp = "DC") :
    acqSetCompletionCriteria c = (.ok, [":ACQ:COMP " ++ toString c ++ "\n"]) ∧
    calSetCalibrationLabel l = (.ok, [":CAL:LAB " ++ l]) ∧
    trigSetCoupling cp = (.ok, [":TRIG:COUP " ++ cp]) ∧
    (∀ b : Bool,
      acqSetDither b = (.ok, [":ACQ:DITH " ++ (if b then "ON" else "OFF") ++ "\n"])) := by
  refine ⟨?_, ?_, ?_, ?_⟩
  · unfold acqSetCompletionCriteria
    rw [if_neg (by omega)]
  · unfold calSetCalibrationLabel
    rw [if_neg (by omega), hl.2]
    simp
  · rcases hcp with h | h <;> subst h <;> rfl
  · intro b
    cases b <;> rfl

/-- Witness for c3_wire_format at criteria 50, an 8-character ASCII label
and AC coupling. -/
theorem c3_wire_format_witness :
    acqSetCompletionCriteria 50 = (.ok, [":ACQ:COMP " ++ toString (50 : Int) ++ "\n"]) ∧
    calSetCalibrationLabel "CAL 2026" = (.ok, [":CAL:LAB " ++ "CAL 2026"]) ∧
    trigSetCoupling "AC" = (.ok, [":TRIG:COUP " ++ "AC"]) ∧
    (∀ b : Bool,
      acqSetDither b = (.ok, [":ACQ:DITH " ++ (if b then "ON" else "OFF") ++ "\n"])) :=
  c3_wire_format 50 "CAL 2026" "AC" (by decide) (by decide) (Or.inl rfl)

/-- Claim C4: decoding the two-field reply line against the acquire-points
composite shape yields the typed pair (1024, 16), and decoding the one-field
line fails — the mismatched field count surfaces as the indexing error the
source raises at `data.split(",")[1]` (the module defines no ProtocolError
class of its own). -/
theorem c4_points_decode :
    acqGetPointsDecode "1024,16" = .ok (1024, 16) ∧
    acqGetPointsDecode "1024" = .error .indexError := by
  refine ⟨rfl, rfl⟩

/-- Claim C6: `acquire.setCount` succeeds exactly on the powers of two from
1 to 256; members of the set are encoded and sent as the `:ACQ:COUN` command
and every other integer is rejected with `InputError` and nothing is sent. -/
theorem c6_setCount_validation (count : Int) :
    ((acqSetCount count).1 = PyStatus.ok ↔ count ∈ acqValidCounts) ∧
    (count ∈ acqValidCounts →
      acqSetCount count = (.ok, [":ACQ:COUN " ++ toString count ++ "\n"])) ∧
    (count ∉ acqValidCounts →
      acqSetCount count = (.raised (.inputError (toString count)
        "Must be a power of 2 with an exponent between 0 and 8!"), [])) := by
  by_cases h : count ∈ acqValidCounts <;> simp [acqSetCount, h]

/-- Witness for c6_setCount_validation at the member 16 and the non-member 3.
-/
theorem c6_setCount_validation_witness :
    acqSetCount 16 = (.ok, [":ACQ:COUN " ++ toString (16 : Int) ++ "\n"]) ∧
    acqSetCount 3 = (.raised (.inputError (toString (3 : Int))
      "Must be a power of 2 with an exponent between 0 and 8!"), []) :=
  ⟨(c6_setCount_validation 16).2.1 (by decide),
   (c6_setCount_validation 3).2.2 (by decide)⟩

/-- When a 0 reading occurs, the consumed polls are a 0-free front followed
by the terminating 0 reading. -/
theorem pollsTaken_spec (reads : List Nat) (h : 0 ∈ reads) :
    ∃ front, pollsTaken reads = front ++ [0] ∧ 0 ∉ front := by
  induction reads with
  | nil => cases h
  | cons r rs ih =>
    by_cases hr : r = 0
    · subst hr
      exact ⟨[], by simp [pollsTaken], by simp⟩
    · have h0 : 0 ∈ rs := by
        rcases List.mem_cons.mp h with h1 | h1
        · exact absurd h1.symm hr
        · exact h1
      obtain ⟨front, hf, hnf⟩ := ih h0
      refine ⟨r :: front, by simp [pollsTaken, hr, hf], ?_⟩
      intro hc
      rcases List.mem_cons.mp hc with h1 | h1
      · exact hr h1.symm
      · exact hnf h1

/-- When a 0 reading occurs, the drain loop terminates having consumed
exactly the readings up to and including the first 0. -/
theorem drainPolls_eq_pollsTaken {reads : List Nat} (h : 0 ∈ reads) :
    drainPolls reads = some (pollsTaken reads) := by
  induction reads with
  | nil => cases h
  | cons r rs ih =>
    by_cases hr : r = 0
    · subst hr
      simp [drainPolls, pollsTaken]
    · have h0 : 0 ∈ rs := by
        rcases List.mem_cons.mp h with h1 | h1
        · exact absurd h1.symm hr
        · exact h1
      simp [drainPolls, pollsTaken, hr, ih h0]

/-- Claim C5: whenever the outbound buffer eventually reports zero bytes
pending, `scope.send` performs exactly the trace open, write of the full
payload, polls of `out_waiting` up to and including the first 0 reading,
then close — the port is opened first, closed last, and never left open
between calls. -/
theorem c5_send_scoped (msg : String) (reads : List Nat) (h : 0 ∈ reads) :
    pySend msg reads
      = some (TEvent.openPort :: TEvent.write msg ::
          ((pollsTaken reads).map TEvent.poll ++ [TEvent.closePort])) ∧
    (pollsTaken reads).getLast? = some 0 ∧
    0 ∉ (pollsTaken reads).dropLast := by
  obtain ⟨front, hf, hnf⟩ := pollsTaken_spec reads h
  refine ⟨?_, ?_, ?_⟩
  · unfold pySend
    rw [drainPolls_eq_pollsTaken h]
    rfl
  · rw [hf]
    exact List.getLast?_concat _
  · rw [hf, List.dropLast_concat]
    exact hnf

/-- Witness for c5_send_scoped: readings 2, 1, 0 while sending a completion
criteria command. -/
theorem c5_send_scoped_witness :
    pySend ":ACQ:COMP 50\n" [2, 1, 0]
      = some (TEvent.openPort :: TEvent.write ":ACQ:COMP 50\n" ::
          ((pollsTaken [2, 1, 0]).map TEvent.poll ++ [TEvent.closePort])) ∧
    (pollsTaken [2, 1, 0]).getLast? = some 0 ∧
    0 ∉ (pollsTaken [2, 1, 0]).dropLast :=
  c5_send_scoped ":ACQ:COMP 50\n" [2, 1, 0] (by decide)

/-- Claim C8: for a valid analog channel, `analog.setLabel` accepts every
6-character ASCII label and sends the quoted label command; it raises
`InputError` on every 7-character label (the length error when the label is
ASCII, and otherwise the ASCII error, which fires regardless of length); and
it raises the ASCII `InputError` on every non-ASCII label. -/
theorem c8_analog_setLabel (channel : Int) (label : String)
    (hch : channel = 1 ∨ channel = 2) :
    (label.length = 6 → pyIsAscii label = true →
      analogSetLabel channel label
        = (.ok, [":ANAL" ++ toString channel ++ ":LAB \"" ++ label ++ "\"\n"])) ∧
    (label.length = 7 → pyIsAscii label = true →
      analogSetLabel channel label
        = (.raised (.inputError label "Length must be six characters or less!"), [])) ∧
    (pyIsAscii label = false →
      analogSetLabel channel label
        = (.raised (.inputError label "Label can only contain ASCII characters!"), [])) := by
  have hch2 : ¬(channel ≠ 1 ∧ channel ≠ 2) := by
    rcases hch with h | h <;> subst h <;> simp
  refine ⟨?_, ?_, ?_⟩
  · intro h6 ha
    simp [analogSetLabel, hch2, ha, show ¬(label.length > 6) by omega]
  · intro h7 ha
    simp [analogSetLabel, hch2, ha, show label.length > 6 by omega]
  · intro haf
    simp [analogSetLabel, hch2, haf]

/-- Witness for c8_analog_setLabel: a 6-character ASCII label is sent, a
7-character ASCII label and a non-ASCII label are rejected. -/
theorem c8_analog_setLabel_witness :
    analogSetLabel 1 "CHAN A"
      = (.ok, [":ANAL" ++ toString (1 : Int) ++ ":LAB \"" ++ "CHAN A" ++ "\"\n"]) ∧
    analogSetLabel 1 "SIGNAL7"
      = (.raised (.inputError "SIGNAL7" "Length must be six characters or less!"), []) ∧
    analogSetLabel 2 "µ"
      = (.raised (.inputError "µ" "Label can only contain ASCII characters!"), []) :=
  ⟨(c8_analog_setLabel 1 "CHAN A" (Or.inl rfl)).1 rfl rfl,
   (c8_analog_setLabel 1 "SIGNAL7" (Or.inl rfl)).2.1 rfl rfl,
   (c8_analog_setLabel 2 "µ" (Or.inr rfl)).2.2 rfl⟩

/-- Claim C9: for every mode string, `channel.setMath` raises an error and
sends nothing, because the membership check compares the mode against an
empty literal; the raised error is in fact the `TypeError` produced by the
one-argument `InputError` construction. -/
theorem c9_setMath_always_raises (mode : String) :
    (chanSetMath mode).1 = PyStatus.raised PyError.typeError ∧
    (chanSetMath mode).2 = [] := by
  constructor <;> simp [chanSetMath, pyEmptyDictKeys]

/-- Claim C10 (counterexample): `analog.setRange` on the valid channel 1
with the out-of-bounds range 1000000 does not silently return — it raises
`TypeError` (from the zero-argument `getProbeAttenuation` call that precedes
the range check), refuting the claim that no exception is raised. -/
theorem c10_out_of_range_counterexample :
    analogSetRange 1 1000000 = (.raised .typeError, []) ∧
    (analogSetRange 1 1000000).1 ≠ PyStatus.ok := by
  refine ⟨rfl, by decide⟩

/-- Claim C10 (amended): `timebase.setRange` does silently drop an
out-of-bounds range — no exception, nothing sent; `analog.setRange`, by
contrast, raises `TypeError` on every input, in range or not, before its
range check can run, and never sends the range command. -/
theorem c10_silent_drop (channel : Int) (range range2 : ℚ)
    (hr : range < 0.00000005 ∨ range > 500) :
    timSetRange channel range = (.ok, []) ∧
    analogSetRange channel range2 = (.raised .typeError, []) := by
  constructor
  · unfold timSetRange
    rw [if_pos hr]
  · rfl

/-- Witness for c10_silent_drop at channel 2 and the out-of-bounds range
1000. -/
theorem c10_silent_drop_witness :
    timSetRange 2 1000 = (.ok, []) ∧
    analogSetRange 2 7 = (.raised .typeError, []) :=
  c10_silent_drop 2 1000 7 (Or.inr (by norm_num))

/-- The channel pattern of line 722 matches no string at all: a match must
first consume the literal slash of the pasted delimiter, after which the bol
anchor sits at position 1 and fails. -/
theorem chanRx_fullmatch_false (s : String) : rxFullmatch chanRx s = false := by
  unfold rxFullmatch chanRx
  cases hs : s.toList with
  | nil => rfl
  | cons d ds =>
    by_cases hd : d = '/'
    · subst hd
      simp [Rx.ends]
    · simp [Rx.ends, hd]

/-- Claim C7 (code evaluation): `channel.setLabel` rejects every channel
token — including the documented valid tokens A1, A2 and D0 through D15 —
because the retained regex delimiters make the full-string pattern
unmatchable, and the rejection raises `TypeError` (the `InputError` there is
built with one argument); nothing is ever sent. -/
theorem c7_chan_setLabel_rejects_all (channel label : String) :
    chanSetLabel channel label = (PyStatus.raised PyError.typeError, []) := by
  unfold chanSetLabel
  rw [chanRx_fullmatch_false channel]
  rfl
